import Mathlib

/-!
Verification of the mode-resolution and synchronization engine of the
watchmarket repository: a shallow embedding of
`src/utils/helpers/app-state.js`, `src/utils/helpers/filters.js` and the
`CEXModeManager` class (`src/unnamed/part_000`), together with proofs of the
spec's testable properties.

Strings are modelled with Lean `String`; the JavaScript primitives
`toUpperCase` / `toLowerCase` / `trim` are embedded as character-wise maps
over the string data (faithful on the ASCII identifiers this code handles).
The key-value store (`getFromLocalStorage` / `saveToLocalStorage`) is an
association list from keys to records; `window.location.search` is a record
of the two query parameters this engine reads (`cex`, `chain`); the chain
registry `window.CONFIG_CHAINS` is an association list from chain key to its
config object.
-/

namespace WatchMarket

/-- Embedding of JavaScript `String.prototype.toUpperCase` (ASCII). -/
def jsUpper (s : String) : String := ⟨s.data.map Char.toUpper⟩

/-- Embedding of JavaScript `String.prototype.toLowerCase` (ASCII). -/
def jsLower (s : String) : String := ⟨s.data.map Char.toLower⟩

/-- Embedding of JavaScript `String.prototype.trim`: drop whitespace from
both ends. -/
def jsTrim (s : String) : String :=
  ⟨((s.data.dropWhile Char.isWhitespace).reverse.dropWhile Char.isWhitespace).reverse⟩

/-- One entry of `window.CONFIG_CHAINS`: the fields of a chain config object
that this engine reads (`Nama_Chain`, used by the legacy-key fallback in
`getFilterChain`). -/
structure ChainCfg where
  namaChain : String
  deriving DecidableEq, Repr

/-- The chain registry `window.CONFIG_CHAINS`, as an association list from
chain key to config object.  An absent registry is the empty list. -/
abbrev ChainRegistry := List (String × ChainCfg)

/-- Property lookup `CONFIG_CHAINS[key]`. -/
def lookupChain (reg : ChainRegistry) (k : String) : Option ChainCfg :=
  (reg.find? (fun p => p.1 == k)).map (·.2)

/-- The query-parameter state of `window.location.search`, restricted to the
two parameters this engine reads.  `none` models an absent parameter
(`params.get` returns `null`); `some s` models a present parameter with
value `s`. -/
structure Query where
  cex : Option String := none
  chain : Option String := none
  deriving DecidableEq, Repr

/-- The mode value produced by `getAppMode` (`src/utils/helpers/app-state.js`
lines 31-53): an object with `type` one of `multi` / `single` / `cex` and
the corresponding payload field. -/
inductive Mode where
  | multi
  | single (chain : String)
  | cex (cex : String)
  deriving DecidableEq, Repr

/-- The pure mode computation inside `getAppMode`
(`src/utils/helpers/app-state.js` lines 34-47), on a cache miss:

* `cexParam = (params.get(cex-param) or empty).trim()`; if non-empty the
  result is `cex` with the trimmed value upper-cased (no registry check);
* else `chainParam = (params.get(chain-param) or empty).toLowerCase()`; if
  empty or the sentinel `all`, the result is `multi`;
* else `single chainParam` when `CONFIG_CHAINS[chainParam]` is present,
  `multi` otherwise. -/
def computeMode (reg : ChainRegistry) (q : Query) : Mode :=
  let cexParam := jsTrim (q.cex.getD "")
  let chainParam := jsLower (q.chain.getD "")
  if cexParam ≠ "" then
    Mode.cex (jsUpper cexParam)
  else if chainParam = "" ∨ chainParam = "all" then
    Mode.multi
  else if (lookupChain reg chainParam).isSome then
    Mode.single chainParam
  else
    Mode.multi

/-- Embedding of `getAppMode` (`src/utils/helpers/app-state.js` lines 31-53)
as an explicit state transformer.  The process-wide cache `window.AppMode`
(an object carrying a `_cached` flag, or `null`) is modelled as
`Option Mode`; the function returns the resolved mode together with the
cache after the call.  On a hit it returns the cached object unchanged
without reading the query; on a miss it computes the mode from the current
query and stores it in the cache. -/
def getAppMode (reg : ChainRegistry) (cache : Option Mode) (q : Query) :
    Mode × Option Mode :=
  match cache with
  | some m => (m, some m)
  | none =>
    let m := computeMode reg q
    (m, some m)

/-- Embedding of `invalidateAppModeCache` (`src/utils/helpers/app-state.js`
lines 96-99): `window.AppMode = null`, unconditionally. -/
def invalidateAppModeCache (_cache : Option Mode) : Option Mode := none

/-- Embedding of `getActiveTokenKey` (`src/utils/helpers/app-state.js`
lines 56-61), factored over the mode that `getAppMode()` returns. -/
def getActiveTokenKey (m : Mode) : String :=
  match m with
  | Mode.single c => "TOKEN_" ++ jsUpper c
  | _ => "TOKEN_MULTICHAIN"

/-- Embedding of `getActiveFilterKey` (`src/utils/helpers/app-state.js`
lines 69-74), factored over the mode that `getAppMode()` returns. -/
def getActiveFilterKey (m : Mode) : String :=
  match m with
  | Mode.single c => "FILTER_" ++ jsUpper c
  | Mode.cex e => "FILTER_CEX_" ++ jsUpper e
  | Mode.multi => "FILTER_MULTICHAIN"

/-!
## Filter store (`src/utils/helpers/filters.js`)

A persisted filter record has the four selection fields this module
normalizes (`chains`, `cex`, `dex`, `pair`, each an array of strings;
`none` models an absent field) plus `extra`, standing for any other
persisted fields (`pnl`, `sort`, ...) that the object spread `{...prev}`
copies verbatim on every merge-on-write.
-/

/-- A stored filter record. -/
structure FilterRec where
  chains : Option (List String) := none
  cex : Option (List String) := none
  dex : Option (List String) := none
  pair : Option (List String) := none
  extra : Option String := none
  deriving DecidableEq, Repr

/-- The partial record supplied to a filter setter; `some` models a field
for which `Object.prototype.hasOwnProperty` holds. -/
structure FilterInput where
  chains : Option (List String) := none
  cex : Option (List String) := none
  dex : Option (List String) := none
  pair : Option (List String) := none
  deriving DecidableEq, Repr

/-- The key-value store behind `getFromLocalStorage` / `saveToLocalStorage`,
restricted to filter records. -/
abbrev Store := List (String × FilterRec)

/-- `getFromLocalStorage(key, null)` on the filter store: `none` models the
default (no record). -/
def getRec (st : Store) (k : String) : Option FilterRec :=
  (st.find? (fun p => p.1 == k)).map (·.2)

/-- `saveToLocalStorage(key, value)` on the filter store. -/
def saveRec (st : Store) (k : String) (v : FilterRec) : Store :=
  (k, v) :: st

/-- The normalized view returned by `getFilterMulti`. -/
structure MultiFilterView where
  chains : List String
  cex : List String
  dex : List String
  pair : List String
  deriving DecidableEq, Repr

/-- Embedding of `getFilterMulti` (`src/utils/helpers/filters.js` lines
41-50): read the aggregate record; when present, return `chains` and `cex`
as stored (only coerced element-wise to strings), `dex` lower-cased and
`pair` upper-cased; when absent, all-empty defaults. -/
def getFilterMulti (st : Store) : MultiFilterView :=
  match getRec st "FILTER_MULTICHAIN" with
  | some f =>
    { chains := f.chains.getD []
      cex := f.cex.getD []
      dex := (f.dex.getD []).map jsLower
      pair := (f.pair.getD []).map jsUpper }
  | none => { chains := [], cex := [], dex := [], pair := [] }

/-- The merge step of `setFilterMulti` (`src/utils/helpers/filters.js`
lines 54-67): spread the previous record, then overwrite each field on
which `hasOwnProperty` holds in the input with its normalized value
(`chains`/`dex` lower-cased, `cex`/`pair` upper-cased); absent fields —
and all other persisted fields, via the spread — stay untouched. -/
def mergeMulti (prev : FilterRec) (val : FilterInput) : FilterRec :=
  { prev with
    chains := match val.chains with
      | some xs => some (xs.map jsLower)
      | none => prev.chains
    cex := match val.cex with
      | some xs => some (xs.map jsUpper)
      | none => prev.cex
    dex := match val.dex with
      | some xs => some (xs.map jsLower)
      | none => prev.dex
    pair := match val.pair with
      | some xs => some (xs.map jsUpper)
      | none => prev.pair }

/-- Embedding of `setFilterMulti` (`src/utils/helpers/filters.js` lines
52-69): read the previous aggregate record (default empty object), merge
the input into it, save the merged record. -/
def setFilterMulti (st : Store) (val : FilterInput) : Store :=
  saveRec st "FILTER_MULTICHAIN" (mergeMulti ((getRec st "FILTER_MULTICHAIN").getD {}) val)

/-- The normalized view returned by `getFilterChain`. -/
structure ChainFilterView where
  cex : List String
  pair : List String
  dex : List String
  deriving DecidableEq, Repr

/-- Embedding of `getFilterChain` (`src/utils/helpers/filters.js` lines
71-89).  The chain argument is lower-cased, the chain-scoped key is the
upper-casing of that.  When no record exists under the chain-scoped key, a
legacy key derived from the registry display name (`Nama_Chain`,
upper-cased) is consulted and, when a legacy record exists, that record is
written under the chain-scoped key (a read that mutates the store).  The
returned view keeps `cex` as stored (element-wise `String(...)` coercion
only), upper-cases `pair` and lower-cases `dex`; with no record at all the
view is all-empty.  The result pairs the view with the store after the
call. -/
def getFilterChain (reg : ChainRegistry) (st : Store) (chain : String) :
    ChainFilterView × Store :=
  let chainKey := jsLower chain
  let key := "FILTER_" ++ jsUpper chainKey
  let found :=
    match getRec st key with
    | some f => (some f, st)
    | none =>
      let legacyName :=
        jsUpper (match lookupChain reg chainKey with
          | some cfg => cfg.namaChain
          | none => "")
      if legacyName ≠ "" then
        match getRec st ("FILTER_" ++ legacyName) with
        | some lf => (some lf, saveRec st key lf)
        | none => (none, st)
      else (none, st)
  match found with
  | (some f, st') =>
    ({ cex := f.cex.getD []
       pair := (f.pair.getD []).map jsUpper
       dex := (f.dex.getD []).map jsLower }, st')
  | (none, st') => ({ cex := [], pair := [], dex := [] }, st')

/-- The merge step of `setFilterChain` (`src/utils/helpers/filters.js`
lines 93-103): spread the previous record, then overwrite each field
present in the input; `cex` is kept as given (element-wise `String(...)`
coercion, the identity on strings), `pair` upper-cased, `dex` lower-cased;
absent fields stay untouched. -/
def mergeChain (prev : FilterRec) (val : FilterInput) : FilterRec :=
  { prev with
    cex := match val.cex with
      | some xs => some xs
      | none => prev.cex
    pair := match val.pair with
      | some xs => some (xs.map jsUpper)
      | none => prev.pair
    dex := match val.dex with
      | some xs => some (xs.map jsLower)
      | none => prev.dex }

/-- Embedding of `setFilterChain` (`src/utils/helpers/filters.js` lines
91-105): merge-on-write under `FILTER_` + upper-cased chain. -/
def setFilterChain (st : Store) (chain : String) (val : FilterInput) : Store :=
  let key := "FILTER_" ++ jsUpper chain
  saveRec st key (mergeChain ((getRec st key).getD {}) val)

/-!
## CEX mode controller (`CEXModeManager`, `src/unnamed/part_000` lines
362-854)

The controller state visible to the claims is: the in-memory pair
`this.active` / `this.selectedCEX`, the persisted `CEX_MODE_STATE` record,
the URL query parameters, the number of history entries pushed via
`history.pushState`, and the `window.AppMode` cache (cleared through
`invalidateAppModeCache`).  Theme application, toasts, toolbar rendering
and the table/card refresh hooks are external side effects on the DOM and
are not part of this state.
-/

/-- The persisted `CEX_MODE_STATE` record shape. -/
structure CexState where
  active : Bool
  selectedCEX : Option String
  deriving DecidableEq, Repr

/-- The world state threaded through the controller transitions. -/
structure World where
  url : Query
  history : Nat
  persisted : Option CexState
  mem : CexState
  appModeCache : Option Mode
  deriving DecidableEq, Repr

/-- Embedding of `CEXModeManager.loadState` (lines 401-412): the stored
`CEX_MODE_STATE` object when present, else the default inactive state. -/
def loadState (persisted : Option CexState) : CexState :=
  persisted.getD { active := false, selectedCEX := none }

/-- Embedding of the `CEXModeManager` constructor (lines 389-399):
`this.active = this.state.active || false` and
`this.selectedCEX = this.state.selectedCEX || null` (the JavaScript `||`
turns an empty-string exchange into `null`). -/
def constructMgr (persisted : Option CexState) : CexState :=
  let st := loadState persisted
  { active := st.active
    selectedCEX := match st.selectedCEX with
      | some s => if s = "" then none else some s
      | none => none }

/-- Embedding of `CEXModeManager.enableCEXMode(cexName, reload)` (lines
519-566).  A falsy (empty) name returns immediately.  Otherwise: set the
in-memory state to active with the upper-cased name, persist it, rewrite
the URL (delete the chain parameter, set the cex parameter to the
lower-cased selection) and push a history entry via `history.pushState`,
and clear the `AppMode` cache.  The `reload` flag only gates the
`refreshTokensTable` hook (an external side effect), not any state field
modelled here. -/
def enableCEXMode (cexName : String) (_reload : Bool) (w : World) : World :=
  if cexName = "" then w
  else
    let sel := jsUpper cexName
    let mem : CexState := { active := true, selectedCEX := some sel }
    { url := { cex := some (jsLower sel), chain := none }
      history := w.history + 1
      persisted := some mem
      mem := mem
      appModeCache := invalidateAppModeCache w.appModeCache }

/-- Embedding of `CEXModeManager.disableCEXMode(reload)` (lines 568-610):
clear the in-memory state, persist it, delete the cex parameter from the
URL (the chain parameter is kept) and push a history entry, and clear the
`AppMode` cache.  As in `enableCEXMode`, `reload` only gates the
`refreshTokensTable` hook. -/
def disableCEXMode (_reload : Bool) (w : World) : World :=
  let mem : CexState := { active := false, selectedCEX := none }
  { url := { w.url with cex := none }
    history := w.history + 1
    persisted := some mem
    mem := mem
    appModeCache := invalidateAppModeCache w.appModeCache }

/-- Embedding of `CEXModeManager.toggleCEXMode(cexName)` (lines 612-618):
disable when currently active on exactly `cexName` (strict `===`
comparison, no case normalization), else enable. -/
def toggleCEXMode (cexName : String) (w : World) : World :=
  if w.mem.active ∧ w.mem.selectedCEX = some cexName then
    disableCEXMode true w
  else
    enableCEXMode cexName true w

/-- Truthiness of `this.selectedCEX` in JavaScript: a present, non-empty
string. -/
def truthyStr : Option String → Bool
  | some s => s != ""
  | none => false

/-- Embedding of `CEXModeManager.checkURLAndUpdateMode` (lines 478-502):
re-read the cex parameter; when present (truthy) and the upper-cased value
differs from the in-memory state (or the controller is inactive), call
`enableCEXMode(cexUpper, false)`; when absent while active, call
`disableCEXMode(false)`; otherwise leave the world unchanged. -/
def checkURLAndUpdateMode (w : World) : World :=
  let cexParam := w.url.cex.getD ""
  if cexParam ≠ "" then
    let cexUpper := jsUpper cexParam
    if ¬ w.mem.active ∨ w.mem.selectedCEX ≠ some cexUpper then
      enableCEXMode cexUpper false w
    else w
  else
    if w.mem.active then disableCEXMode false w else w

/-- Embedding of the state-relevant part of `CEXModeManager.init` (lines
421-447): when the URL carries a (truthy) cex parameter, enable on its
upper-casing without reload; otherwise, when the in-memory state is active
with a truthy selection, disable without reload.  URL monitoring setup and
toolbar rendering are external side effects. -/
def initManager (w : World) : World :=
  let cexParam := w.url.cex.getD ""
  if cexParam ≠ "" then
    enableCEXMode (jsUpper cexParam) false w
  else if w.mem.active ∧ truthyStr w.mem.selectedCEX then
    disableCEXMode false w
  else w

/-!
## Helper lemmas
-/

/-- String append is left-cancellative. -/
theorem strAppendCancel {a x y : String} (h : a ++ x = a ++ y) : x = y := by
  apply String.ext
  have h2 := congrArg String.data h
  simp only [String.data_append] at h2
  exact List.append_cancel_left h2

/-- Upper-casing a non-empty string yields a non-empty string. -/
theorem jsUpperNeEmpty {s : String} (h : s ≠ "") : jsUpper s ≠ "" := by
  intro hc
  apply h
  apply String.ext
  have h2 := congrArg String.data hc
  simpa [jsUpper] using h2

/-- Reading back a record just saved under the same key. -/
theorem getRec_save (st : Store) (k : String) (v : FilterRec) :
    getRec (saveRec st k v) k = some v := by
  simp [getRec, saveRec, List.find?]

/-- The in-memory invariant of `CexModeState`: the selected exchange is
present exactly when the controller is active. -/
def cexInv (st : CexState) : Prop := st.selectedCEX.isSome = st.active

instance (st : CexState) : Decidable (cexInv st) := by
  unfold cexInv; infer_instance

/-- Well-formedness of a persisted `CEX_MODE_STATE` record: absent, or
satisfying the invariant with a non-empty exchange string. -/
def wfPersisted : Option CexState → Prop
  | none => True
  | some st => st.selectedCEX.isSome = st.active ∧ st.selectedCEX ≠ some ""

instance (p : Option CexState) : Decidable (wfPersisted p) := by
  cases p <;> (unfold wfPersisted; infer_instance)

/-- `enableCEXMode` preserves the in-memory invariant (and establishes it
whenever the name is non-empty). -/
theorem enable_mem_inv (name : String) (r : Bool) (w : World)
    (h : cexInv w.mem) : cexInv ((enableCEXMode name r w).mem) := by
  by_cases hn : name = ""
  · simpa [enableCEXMode, hn] using h
  · simp [enableCEXMode, hn, cexInv]

/-- `disableCEXMode` establishes the in-memory invariant. -/
theorem disable_mem_inv (r : Bool) (w : World) :
    cexInv ((disableCEXMode r w).mem) := rfl

/-!
## Claims
-/

/-- C1: for every query (and every chain registry), the resolved mode is
exactly one of `multi` / `single` / `cex`; and whenever the cex query
parameter is present with a non-empty trimmed value, a (cache-miss)
resolution returns `cex` with the trimmed value upper-cased — regardless of
the chain parameter and the chain registry, and with no exchange registry
consulted (`computeMode` takes no exchange registry at all). -/
theorem claim1_cex_priority (reg : ChainRegistry) (q : Query) :
    ((getAppMode reg none q).1 = computeMode reg q) ∧
    (computeMode reg q = Mode.multi ∨
      (∃ c, computeMode reg q = Mode.single c) ∨
      (∃ e, computeMode reg q = Mode.cex e)) ∧
    (jsTrim (q.cex.getD "") ≠ "" →
      computeMode reg q = Mode.cex (jsUpper (jsTrim (q.cex.getD "")))) := by
  refine ⟨rfl, ?_, ?_⟩
  · cases h : computeMode reg q with
    | multi => exact Or.inl rfl
    | single c => exact Or.inr (Or.inl ⟨c, rfl⟩)
    | cex e => exact Or.inr (Or.inr ⟨e, rfl⟩)
  · intro h
    simp [computeMode, h]

/-- Witness for C1: `?cex=gate&chain=ethereum` resolves to `cex GATE` even
though the chain parameter names a chain and the registry is empty. -/
theorem claim1_witness :
    jsTrim ((some "gate").getD "") ≠ "" ∧
    computeMode [] { cex := some "gate", chain := some "ethereum" } = Mode.cex "GATE" := by
  refine ⟨by decide, ?_⟩
  have h := (claim1_cex_priority [] { cex := some "gate", chain := some "ethereum" }).2.2 (by decide)
  exact h.trans (by decide)

/-- C2: with no cex parameter and a chain parameter whose lower-casing is
neither empty, nor the sentinel `all`, nor a key of the chain registry, the
resolved mode is `multi`; the computation is a total function, so no error
is raised. -/
theorem claim2_unknown_chain_falls_back (reg : ChainRegistry) (q : Query)
    (hcex : q.cex = none)
    (h1 : jsLower (q.chain.getD "") ≠ "")
    (h2 : jsLower (q.chain.getD "") ≠ "all")
    (h3 : lookupChain reg (jsLower (q.chain.getD "")) = none) :
    computeMode reg q = Mode.multi := by
  simp [computeMode, hcex, h1, h2, h3, jsTrim]

/-- Witness for C2: `?chain=NoSuchChain` against a registry containing only
`bsc` resolves to `multi`. -/
theorem claim2_witness :
    (({ cex := none, chain := some "NoSuchChain" } : Query).cex = none) ∧
    jsLower ((some "NoSuchChain").getD "") ≠ "" ∧
    jsLower ((some "NoSuchChain").getD "") ≠ "all" ∧
    lookupChain [("bsc", { namaChain := "BSC" })] (jsLower ((some "NoSuchChain").getD "")) = none ∧
    computeMode [("bsc", { namaChain := "BSC" })] { cex := none, chain := some "NoSuchChain" } = Mode.multi := by
  refine ⟨rfl, by decide, by decide, by decide, ?_⟩
  exact claim2_unknown_chain_falls_back _ _ rfl (by decide) (by decide) (by decide)

/-- C3: a cache-miss call populates the cache with the computed mode; every
call on a warm cache returns the identical cached mode without consulting
the query (the query and registry arguments are arbitrary and unused);
`invalidateAppModeCache` unconditionally clears the cache, and the next
call re-derives the mode from the current query. -/
theorem claim3_cache_stability (reg reg2 : ChainRegistry) (q q2 : Query)
    (m : Mode) (c : Option Mode) :
    (getAppMode reg none q = (computeMode reg q, some (computeMode reg q))) ∧
    (getAppMode reg2 (some m) q2 = (m, some m)) ∧
    (invalidateAppModeCache c = none) ∧
    (getAppMode reg2 (invalidateAppModeCache c) q2 =
      (computeMode reg2 q2, some (computeMode reg2 q2))) :=
  ⟨rfl, rfl, rfl, rfl⟩

/-- C4: the token key of every `cex` mode equals the token key of `multi`
(the shared aggregate token key), and the token key of `single c` is the
chain-scoped key derived from `c`. -/
theorem claim4_token_key_sharing (e c : String) :
    getActiveTokenKey (Mode.cex e) = getActiveTokenKey Mode.multi ∧
    getActiveTokenKey (Mode.cex e) = "TOKEN_MULTICHAIN" ∧
    getActiveTokenKey (Mode.single c) = "TOKEN_" ++ jsUpper c :=
  ⟨rfl, rfl, rfl⟩

/-- C5 counterexample: the claim quantifies over every chain and exchange
value, but the chain value `multichain` makes the chain-scoped filter key
collide with the aggregate filter key, so the three keys are not pairwise
distinct. -/
theorem claim5_counterexample :
    getActiveFilterKey (Mode.single "multichain") = getActiveFilterKey Mode.multi := by
  decide

/-- C5 (amended): the three filter keys are pairwise distinct for every
chain `c` and exchange `e` such that the upper-casing of `c` is neither
`MULTICHAIN` nor `CEX_` followed by the upper-casing of `e` — which holds
for all ordinary registry keys. -/
theorem claim5_filter_keys_distinct (c e : String)
    (h1 : jsUpper c ≠ "MULTICHAIN")
    (h2 : jsUpper c ≠ "CEX_" ++ jsUpper e) :
    getActiveFilterKey (Mode.single c) ≠ getActiveFilterKey (Mode.cex e) ∧
    getActiveFilterKey (Mode.single c) ≠ getActiveFilterKey Mode.multi ∧
    getActiveFilterKey (Mode.cex e) ≠ getActiveFilterKey Mode.multi := by
  refine ⟨?_, ?_, ?_⟩
  · intro h
    apply h2
    have h' : ("FILTER_" : String) ++ jsUpper c = "FILTER_" ++ ("CEX_" ++ jsUpper e) := h
    exact strAppendCancel h'
  · intro h
    apply h1
    have h' : ("FILTER_" : String) ++ jsUpper c = "FILTER_" ++ "MULTICHAIN" := h
    exact strAppendCancel h'
  · intro h
    have hc : (getActiveFilterKey (Mode.cex e)).data.get? 7 = some 'C' := rfl
    rw [h] at hc
    exact absurd hc (by decide)

/-- Witness for C5 (amended): the keys for chain `bsc` and exchange
`binance` are pairwise distinct. -/
theorem claim5_witness :
    jsUpper "bsc" ≠ "MULTICHAIN" ∧
    jsUpper "bsc" ≠ "CEX_" ++ jsUpper "binance" ∧
    (getActiveFilterKey (Mode.single "bsc") ≠ getActiveFilterKey (Mode.cex "binance") ∧
     getActiveFilterKey (Mode.single "bsc") ≠ getActiveFilterKey Mode.multi ∧
     getActiveFilterKey (Mode.cex "binance") ≠ getActiveFilterKey Mode.multi) :=
  ⟨by decide, by decide, claim5_filter_keys_distinct "bsc" "binance" (by decide) (by decide)⟩

/-- C6: filter writes are merge-on-write.  The stored record after a write
is the merge of the previous record with the input, in both the aggregate
and the chain scope; the merge overwrites exactly the fields present in
the input with their normalized values and leaves absent fields — and the
other persisted fields carried by the spread — untouched; consequently
writing a dex-only record twice stores the same record as writing it once,
and writing a dex-only record then a pair-only record leaves both fields
present. -/
theorem claim6_merge_on_write :
    (∀ (st : Store) (val : FilterInput),
      getRec (setFilterMulti st val) "FILTER_MULTICHAIN" =
        some (mergeMulti ((getRec st "FILTER_MULTICHAIN").getD {}) val)) ∧
    (∀ (st : Store) (chain : String) (val : FilterInput),
      getRec (setFilterChain st chain val) ("FILTER_" ++ jsUpper chain) =
        some (mergeChain ((getRec st ("FILTER_" ++ jsUpper chain)).getD {}) val)) ∧
    (∀ (prev : FilterRec) (val : FilterInput),
      (∀ xs, val.chains = some xs → (mergeMulti prev val).chains = some (xs.map jsLower)) ∧
      (val.chains = none → (mergeMulti prev val).chains = prev.chains) ∧
      (∀ xs, val.cex = some xs → (mergeMulti prev val).cex = some (xs.map jsUpper)) ∧
      (val.cex = none → (mergeMulti prev val).cex = prev.cex) ∧
      (∀ xs, val.dex = some xs → (mergeMulti prev val).dex = some (xs.map jsLower)) ∧
      (val.dex = none → (mergeMulti prev val).dex = prev.dex) ∧
      (∀ xs, val.pair = some xs → (mergeMulti prev val).pair = some (xs.map jsUpper)) ∧
      (val.pair = none → (mergeMulti prev val).pair = prev.pair) ∧
      (mergeMulti prev val).extra = prev.extra) ∧
    (∀ (prev : FilterRec) (val : FilterInput),
      (∀ xs, val.cex = some xs → (mergeChain prev val).cex = some xs) ∧
      (val.cex = none → (mergeChain prev val).cex = prev.cex) ∧
      (∀ xs, val.pair = some xs → (mergeChain prev val).pair = some (xs.map jsUpper)) ∧
      (val.pair = none → (mergeChain prev val).pair = prev.pair) ∧
      (∀ xs, val.dex = some xs → (mergeChain prev val).dex = some (xs.map jsLower)) ∧
      (val.dex = none → (mergeChain prev val).dex = prev.dex) ∧
      (mergeChain prev val).chains = prev.chains ∧
      (mergeChain prev val).extra = prev.extra) ∧
    (∀ st : Store,
      getRec (setFilterMulti (setFilterMulti st { dex := some ["uniswap"] })
          { dex := some ["uniswap"] }) "FILTER_MULTICHAIN" =
        getRec (setFilterMulti st { dex := some ["uniswap"] }) "FILTER_MULTICHAIN") ∧
    (∀ st : Store,
      (getRec (setFilterMulti (setFilterMulti st { dex := some ["uniswap"] })
          { pair := some ["ETHUSDT"] }) "FILTER_MULTICHAIN").map
            (fun r => (r.dex, r.pair)) =
        some (some ["uniswap"], some ["ETHUSDT"])) := by
  refine ⟨?_, ?_, ?_, ?_, ?_, ?_⟩
  · intro st val
    exact getRec_save ..
  · intro st chain val
    exact getRec_save ..
  · intro prev val
    refine ⟨?_, ?_, ?_, ?_, ?_, ?_, ?_, ?_, rfl⟩ <;>
      first
        | (intro xs h; simp [mergeMulti, h])
        | (intro h; simp [mergeMulti, h])
  · intro prev val
    refine ⟨?_, ?_, ?_, ?_, ?_, ?_, rfl, rfl⟩ <;>
      first
        | (intro xs h; simp [mergeChain, h])
        | (intro h; simp [mergeChain, h])
  · intro st
    rfl
  · intro st
    rfl

/-- Witness for C6: concrete instances of the merge and scenario parts at
an empty store, a store with a saved pair selection, and concrete inputs. -/
theorem claim6_witness :
    getRec (setFilterMulti [] { chains := some ["BSC"] }) "FILTER_MULTICHAIN" =
      some { chains := some ["bsc"] } ∧
    (mergeMulti { pair := some ["ETHUSDT"], extra := some "pnl" }
        { dex := some ["UniSwap"] }).dex = some ["uniswap"] ∧
    (mergeMulti { pair := some ["ETHUSDT"], extra := some "pnl" }
        { dex := some ["UniSwap"] }).pair = some ["ETHUSDT"] ∧
    (mergeMulti { pair := some ["ETHUSDT"], extra := some "pnl" }
        { dex := some ["UniSwap"] }).extra = some "pnl" ∧
    getRec (setFilterMulti (setFilterMulti [] { dex := some ["uniswap"] })
        { dex := some ["uniswap"] }) "FILTER_MULTICHAIN" =
      getRec (setFilterMulti [] { dex := some ["uniswap"] }) "FILTER_MULTICHAIN" := by
  have h := claim6_merge_on_write
  refine ⟨?_, ?_, ?_, ?_, h.2.2.2.2.1 []⟩
  · exact (h.1 [] { chains := some ["BSC"] }).trans (by decide)
  · exact ((h.2.2.1 { pair := some ["ETHUSDT"], extra := some "pnl" }
      { dex := some ["UniSwap"] }).2.2.2.2.1 ["UniSwap"] rfl).trans (by decide)
  · exact (h.2.2.1 { pair := some ["ETHUSDT"], extra := some "pnl" }
      { dex := some ["UniSwap"] }).2.2.2.2.2.2.2.1 rfl
  · exact (h.2.2.1 { pair := some ["ETHUSDT"], extra := some "pnl" }
      { dex := some ["UniSwap"] }).2.2.2.2.2.2.2.2

/-- C7 counterexample: exchange identifiers are not upper-cased on read —
a chain-scoped record storing the exchange `gate` in lower case is returned
as `gate` by `getFilterChain`, and the aggregate getter likewise returns
both `cex` and `chains` exactly as stored. -/
theorem claim7_counterexample :
    (getFilterChain [] [("FILTER_BSC", { cex := some ["gate"] })] "bsc").1.cex = ["gate"] ∧
    (["gate"] : List String) ≠ ["gate"].map jsUpper ∧
    (getFilterMulti [("FILTER_MULTICHAIN",
        { chains := some ["BSC"], cex := some ["gate"] })]).cex = ["gate"] ∧
    (getFilterMulti [("FILTER_MULTICHAIN",
        { chains := some ["BSC"], cex := some ["gate"] })]).chains = ["BSC"] ∧
    (["BSC"] : List String) ≠ ["BSC"].map jsLower := by
  decide

/-- C7 (amended): reads case-normalize only the dex identifiers
(lower-cased) and the pair identifiers (upper-cased); chain and exchange
identifiers are returned exactly as stored by both `getFilterMulti` and
`getFilterChain` (their normalization happens on write, not on read). -/
theorem claim7_read_normalization (st : Store) (f : FilterRec) :
    (getRec st "FILTER_MULTICHAIN" = some f →
      getFilterMulti st =
        { chains := f.chains.getD []
          cex := f.cex.getD []
          dex := (f.dex.getD []).map jsLower
          pair := (f.pair.getD []).map jsUpper }) ∧
    (∀ (reg : ChainRegistry) (chain : String),
      getRec st ("FILTER_" ++ jsUpper (jsLower chain)) = some f →
      (getFilterChain reg st chain).1 =
        { cex := f.cex.getD []
          pair := (f.pair.getD []).map jsUpper
          dex := (f.dex.getD []).map jsLower } ∧
      (getFilterChain reg st chain).2 = st) := by
  constructor
  · intro h
    simp [getFilterMulti, h]
  · intro reg chain h
    constructor <;> simp [getFilterChain, h]

/-- Witness for C7 (amended): concrete reads of a store holding mixed-case
records in both scopes. -/
theorem claim7_witness :
    getFilterMulti [("FILTER_MULTICHAIN",
        { chains := some ["BSC"], cex := some ["gate"], dex := some ["UniSwap"],
          pair := some ["ethusdt"] })] =
      { chains := ["BSC"], cex := ["gate"], dex := ["uniswap"], pair := ["ETHUSDT"] } ∧
    (getFilterChain [] [("FILTER_BSC",
        { cex := some ["gate"], dex := some ["UniSwap"], pair := some ["ethusdt"] })]
        "bsc").1 =
      { cex := ["gate"], pair := ["ETHUSDT"], dex := ["uniswap"] } := by
  constructor
  · exact ((claim7_read_normalization
      [("FILTER_MULTICHAIN",
        { chains := some ["BSC"], cex := some ["gate"], dex := some ["UniSwap"],
          pair := some ["ethusdt"] })]
      { chains := some ["BSC"], cex := some ["gate"], dex := some ["UniSwap"],
        pair := some ["ethusdt"] }).1 (by decide)).trans (by decide)
  · exact (((claim7_read_normalization
      [("FILTER_BSC",
        { cex := some ["gate"], dex := some ["UniSwap"], pair := some ["ethusdt"] })]
      { cex := some ["gate"], dex := some ["UniSwap"], pair := some ["ethusdt"] }).2
      [] "bsc" (by decide)).1).trans (by decide)

/-- C10: a chain-scoped filter read is not side-effect-free.  When no
record exists under the chain-scoped key and the registry names the chain
with a non-empty display name under which a legacy record exists,
`getFilterChain` writes the legacy record under the chain-scoped key, so
the store after the read differs from the store before it. -/
theorem claim10_legacy_migration (reg : ChainRegistry) (st : Store)
    (chain : String) (cfg : ChainCfg) (lf : FilterRec)
    (h0 : getRec st ("FILTER_" ++ jsUpper (jsLower chain)) = none)
    (h1 : lookupChain reg (jsLower chain) = some cfg)
    (h2 : jsUpper cfg.namaChain ≠ "")
    (h3 : getRec st ("FILTER_" ++ jsUpper cfg.namaChain) = some lf) :
    (getFilterChain reg st chain).2 =
      saveRec st ("FILTER_" ++ jsUpper (jsLower chain)) lf ∧
    getRec (getFilterChain reg st chain).2 ("FILTER_" ++ jsUpper (jsLower chain)) =
      some lf := by
  have hst : (getFilterChain reg st chain).2 =
      saveRec st ("FILTER_" ++ jsUpper (jsLower chain)) lf := by
    simp [getFilterChain, h0, h1, h2, h3]
  exact ⟨hst, by rw [hst]; exact getRec_save ..⟩

/-- Witness for C10: with registry entry `ethereum` displayed as `ERC` and
a legacy record stored under `FILTER_ERC`, reading the `ethereum` chain
filter writes that record under `FILTER_ETHEREUM`. -/
theorem claim10_witness :
    getRec [("FILTER_ERC", ({ cex := some ["BINANCE"] } : FilterRec))]
      ("FILTER_" ++ jsUpper (jsLower "ethereum")) = none ∧
    (getFilterChain [("ethereum", { namaChain := "ERC" })]
        [("FILTER_ERC", { cex := some ["BINANCE"] })] "ethereum").2 =
      saveRec [("FILTER_ERC", { cex := some ["BINANCE"] })]
        ("FILTER_" ++ jsUpper (jsLower "ethereum")) { cex := some ["BINANCE"] } := by
  refine ⟨by decide, ?_⟩
  exact (claim10_legacy_migration [("ethereum", { namaChain := "ERC" })]
    [("FILTER_ERC", { cex := some ["BINANCE"] })] "ethereum"
    { namaChain := "ERC" } { cex := some ["BINANCE"] }
    (by decide) (by decide) (by decide) (by decide)).1

/-- C8 counterexample: URL-driven reconciliation does push a new history
entry.  With `?cex=gate` in the URL and an inactive controller,
`checkURLAndUpdateMode` performs the enable transition and the history
count increases by one; likewise, with no cex parameter and an active
controller, the disable transition increases the history count. -/
theorem claim8_counterexample :
    (checkURLAndUpdateMode
        { url := { cex := some "gate", chain := none }, history := 0,
          persisted := none, mem := { active := false, selectedCEX := none },
          appModeCache := none }).history = 1 ∧
    (checkURLAndUpdateMode
        { url := { cex := none, chain := some "bsc" }, history := 0,
          persisted := some { active := true, selectedCEX := some "OKX" },
          mem := { active := true, selectedCEX := some "OKX" },
          appModeCache := none }).history = 1 := by
  decide

/-- C8 (amended): during URL-driven reconciliation, a present (non-empty)
exchange selector that does not match the in-memory state triggers
`enableCEXMode` with the reload flag false, and an absent selector while
active triggers `disableCEXMode` with the reload flag false — the false
flag suppresses only the table-refresh hook; both transitions still push
one new history entry via `history.pushState`. -/
theorem claim8_reconciliation (w : World) :
    (w.url.cex.getD "" ≠ "" →
      (¬ w.mem.active ∨ w.mem.selectedCEX ≠ some (jsUpper (w.url.cex.getD ""))) →
      checkURLAndUpdateMode w = enableCEXMode (jsUpper (w.url.cex.getD "")) false w ∧
      (checkURLAndUpdateMode w).history = w.history + 1) ∧
    (w.url.cex.getD "" = "" → w.mem.active = true →
      checkURLAndUpdateMode w = disableCEXMode false w ∧
      (checkURLAndUpdateMode w).history = w.history + 1) := by
  constructor
  · intro h1 h2
    have he : checkURLAndUpdateMode w = enableCEXMode (jsUpper (w.url.cex.getD "")) false w := by
      simp only [checkURLAndUpdateMode]
      rw [if_pos h1, if_pos h2]
    refine ⟨he, ?_⟩
    rw [he]
    simp only [enableCEXMode]
    rw [if_neg (jsUpperNeEmpty h1)]
  · intro h1 h2
    have hd : checkURLAndUpdateMode w = disableCEXMode false w := by
      simp only [checkURLAndUpdateMode]
      rw [if_neg (by simp [h1]), if_pos h2]
    exact ⟨hd, by rw [hd]; rfl⟩

/-- Witness for C8 (amended): the two reconciliation directions at the
concrete worlds of the counterexample. -/
theorem claim8_witness :
    (checkURLAndUpdateMode
        { url := { cex := some "gate", chain := none }, history := 5,
          persisted := none, mem := { active := false, selectedCEX := none },
          appModeCache := none } =
      enableCEXMode (jsUpper "gate") false
        { url := { cex := some "gate", chain := none }, history := 5,
          persisted := none, mem := { active := false, selectedCEX := none },
          appModeCache := none }) ∧
    (checkURLAndUpdateMode
        { url := { cex := none, chain := some "bsc" }, history := 5,
          persisted := some { active := true, selectedCEX := some "OKX" },
          mem := { active := true, selectedCEX := some "OKX" },
          appModeCache := none } =
      disableCEXMode false
        { url := { cex := none, chain := some "bsc" }, history := 5,
          persisted := some { active := true, selectedCEX := some "OKX" },
          mem := { active := true, selectedCEX := some "OKX" },
          appModeCache := none }) :=
  ⟨((claim8_reconciliation
      { url := { cex := some "gate", chain := none }, history := 5,
        persisted := none, mem := { active := false, selectedCEX := none },
        appModeCache := none }).1 (by decide) (by decide)).1,
   ((claim8_reconciliation
      { url := { cex := none, chain := some "bsc" }, history := 5,
        persisted := some { active := true, selectedCEX := some "OKX" },
        mem := { active := true, selectedCEX := some "OKX" },
        appModeCache := none }).2 (by decide) (by decide)).1⟩

/-- C9 counterexample: the invariant is not guaranteed after restoring an
arbitrary persisted record — a stored `CEX_MODE_STATE` of
`active true, selectedCEX null` is restored verbatim by the constructor,
giving an active controller with no selected exchange. -/
theorem claim9_counterexample :
    ¬ cexInv (constructMgr (some { active := true, selectedCEX := none })) := by
  decide

/-- C9 (amended): the invariant — the selected exchange is present exactly
when the controller is active — holds after construction provided the
persisted record, when present, itself satisfies the invariant with a
non-empty exchange string, and it is preserved by every operation: enable,
disable, toggle, startup reconciliation and URL-driven reconciliation. -/
theorem claim9_invariant :
    (∀ p, wfPersisted p → cexInv (constructMgr p)) ∧
    (∀ (w : World) (name : String) (r : Bool),
      cexInv w.mem → cexInv ((enableCEXMode name r w).mem)) ∧
    (∀ (w : World) (r : Bool), cexInv ((disableCEXMode r w).mem)) ∧
    (∀ (w : World) (name : String),
      cexInv w.mem → cexInv ((toggleCEXMode name w).mem)) ∧
    (∀ w : World, cexInv w.mem → cexInv ((initManager w).mem)) ∧
    (∀ w : World, cexInv w.mem → cexInv ((checkURLAndUpdateMode w).mem)) := by
  refine ⟨?_, fun w name r h => enable_mem_inv name r w h,
    fun w r => disable_mem_inv r w, ?_, ?_, ?_⟩
  · intro p hp
    match p with
    | none => rfl
    | some st =>
      obtain ⟨h1, h2⟩ := hp
      match hsel : st.selectedCEX with
      | none =>
        rw [hsel] at h1
        simp only [constructMgr, loadState, cexInv, Option.getD_some, hsel]
        simpa using h1.symm
      | some s =>
        have hs : s ≠ "" := by
          intro hc
          exact h2 (by rw [hsel, hc])
        rw [hsel] at h1
        simp only [constructMgr, loadState, cexInv, Option.getD_some, hsel]
        rw [if_neg hs]
        simpa using h1.symm
  · intro w name h
    simp only [toggleCEXMode]
    split
    · exact disable_mem_inv true w
    · exact enable_mem_inv name true w h
  · intro w h
    simp only [initManager]
    split
    · exact enable_mem_inv _ false w h
    · split
      · exact disable_mem_inv false w
      · exact h
  · intro w h
    simp only [checkURLAndUpdateMode]
    split
    · split
      · exact enable_mem_inv _ false w h
      · exact h
    · split
      · exact disable_mem_inv false w
      · exact h

/-- Witness for C9 (amended): concrete instances — restore from a
well-formed active record, and preservation across a toggle, the startup
reconciliation and a URL-driven reconciliation from a concrete active
world. -/
theorem claim9_witness :
    wfPersisted (some { active := true, selectedCEX := some "OKX" }) ∧
    cexInv (constructMgr (some { active := true, selectedCEX := some "OKX" })) ∧
    cexInv ((toggleCEXMode "OKX"
      { url := { cex := some "okx", chain := none }, history := 0,
        persisted := some { active := true, selectedCEX := some "OKX" },
        mem := { active := true, selectedCEX := some "OKX" },
        appModeCache := none }).mem) ∧
    cexInv ((checkURLAndUpdateMode
      { url := { cex := none, chain := none }, history := 0,
        persisted := some { active := true, selectedCEX := some "OKX" },
        mem := { active := true, selectedCEX := some "OKX" },
        appModeCache := none }).mem) :=
  ⟨by decide,
   claim9_invariant.1 (some { active := true, selectedCEX := some "OKX" }) (by decide),
   claim9_invariant.2.2.2.1
     { url := { cex := some "okx", chain := none }, history := 0,
       persisted := some { active := true, selectedCEX := some "OKX" },
       mem := { active := true, selectedCEX := some "OKX" },
       appModeCache := none } "OKX" (by decide),
   claim9_invariant.2.2.2.2.2
     { url := { cex := none, chain := none }, history := 0,
       persisted := some { active := true, selectedCEX := some "OKX" },
       mem := { active := true, selectedCEX := some "OKX" },
       appModeCache := none } (by decide)⟩

end WatchMarket
